import Mathlib

/-!
Shallow embedding of src/src/memory.rs (crate rustemu): an address-space
decoder for an emulated hardware bus.  Rust u128 values are embedded as Nat
(every value the code produces stays below 2 ^ 128; bitwise and is Nat.land,
written &&&).  Handler function pointers fn(Address) -> uW are embedded as
Nat-valued functions whose result is reduced mod 2 ^ W at the call site,
which is exactly the information carried by the Rust return type.  Write
handlers fn(Address, uW) return unit and act only by external side effects,
so a write is modelled by the observable invocation event it produces
(which arguments the handler receives) together with the successor map
state.  A Rust panic is modelled as an Except.error carrying which of the
two panic sites fired.
-/

/-- Rust: pub type Address = u128 (embedded as Nat). -/
abbrev Address := Nat

/-- Rust enum MemoryMapEntryType. -/
inductive MemoryMapEntryType where
  | UnmappedLow
  | UnmappedHigh
  | Read
  | Write
  | ReadWrite
deriving DecidableEq, Repr

/-- Rust: type ReadU8Delegate = Option<fn(Address) -> u8>.  The u8 codomain
is recovered by reducing the result mod 2 ^ 8 where the delegate is called. -/
abbrev ReadU8Delegate := Option (Address → Nat)

/-- Rust: type ReadU16Delegate = Option<fn(Address) -> u16>. -/
abbrev ReadU16Delegate := Option (Address → Nat)

/-- Rust: type ReadU32Delegate = Option<fn(Address) -> u32>. -/
abbrev ReadU32Delegate := Option (Address → Nat)

/-- Rust: type ReadU64Delegate = Option<fn(Address) -> u64>. -/
abbrev ReadU64Delegate := Option (Address → Nat)

/-- Rust: type ReadU128Delegate = Option<fn(Address) -> u128>. -/
abbrev ReadU128Delegate := Option (Address → Nat)

/-- Rust: type WriteU8Delegate = Option<fn(Address, u8)>; the function
returns unit, so it is pure data here and acts only through the recorded
invocation event. -/
abbrev WriteU8Delegate := Option (Address → Nat → Unit)

/-- Rust: type WriteU16Delegate = Option<fn(Address, u16)>. -/
abbrev WriteU16Delegate := Option (Address → Nat → Unit)

/-- Rust: type WriteU32Delegate = Option<fn(Address, u32)>. -/
abbrev WriteU32Delegate := Option (Address → Nat → Unit)

/-- Rust: type WriteU64Delegate = Option<fn(Address, u64)>. -/
abbrev WriteU64Delegate := Option (Address → Nat → Unit)

/-- Rust: type WriteU128Delegate = Option<fn(Address, u128)>. -/
abbrev WriteU128Delegate := Option (Address → Nat → Unit)

/-- Rust struct MemoryMapEntry: one inclusive range [start, end] with a type
and ten optional per-width handlers.  The Rust field end is a Lean keyword,
hence the quoted name. -/
structure MemoryMapEntry where
  start : Address
  «end» : Address
  entry_type : MemoryMapEntryType
  func_read_u8 : ReadU8Delegate
  func_read_u16 : ReadU16Delegate
  func_read_u32 : ReadU32Delegate
  func_read_u64 : ReadU64Delegate
  func_read_u128 : ReadU128Delegate
  func_write_u8 : WriteU8Delegate
  func_write_u16 : WriteU16Delegate
  func_write_u32 : WriteU32Delegate
  func_write_u64 : WriteU64Delegate
  func_write_u128 : WriteU128Delegate

/-- Rust MemoryMapEntry::new(): full range [0, u128::MAX], UnmappedLow,
no handlers. -/
def MemoryMapEntry.new : MemoryMapEntry where
  start := 0
  «end» := 2 ^ 128 - 1
  entry_type := MemoryMapEntryType.UnmappedLow
  func_read_u8 := none
  func_read_u16 := none
  func_read_u32 := none
  func_read_u64 := none
  func_read_u128 := none
  func_write_u8 := none
  func_write_u16 := none
  func_write_u32 := none
  func_write_u64 := none
  func_write_u128 := none

/-- Rust struct MemoryMap. -/
structure MemoryMap where
  entries : List MemoryMapEntry
  current_addr : Address
  global_addr_mask : Address

/-- Rust enum MemoryMapError (declared in the source but used by no code
path of this file). -/
inductive MemoryMapError where
  | NoEntriesFound (addr : Address)
deriving DecidableEq, Repr

/-- The two Rust panic sites of memory.rs: the out-of-bounds index
map.entries[entry_count + 1] in search_entries, and the explicit panic in
read_u8 for a mapped region with no 8-bit read handler. -/
inductive PanicKind where
  | indexOutOfBounds
  | memoryMapBroken
deriving DecidableEq, Repr

/-- Rust MemoryMap::addr(): self.current_addr & self.global_addr_mask. -/
def MemoryMap.addr (self : MemoryMap) : Address :=
  self.current_addr &&& self.global_addr_mask

/-- The for loop of search_entries: at list position i, a matching entry is
returned at once; otherwise entry_count is set to i and the scan continues.
Returns the matching entry, or the final value of entry_count (initial
value 0, per the Rust let mut entry_count = 0). -/
def search_loop (addr : Address) :
    List MemoryMapEntry → Nat → Nat → Sum MemoryMapEntry Nat
  | [], _, entry_count => Sum.inr entry_count
  | entry :: rest, i, _ =>
      if entry.start ≤ addr ∧ addr ≤ entry.«end» then Sum.inl entry
      else search_loop addr rest (i + 1) i

/-- Rust fn search_entries(map: &mut MemoryMap) -> MemoryMapEntry.  The
mutable borrow is embedded by returning the (copied) entry together with
the successor map; the Rust index expression map.entries[entry_count + 1]
panics when out of bounds, hence the Except. -/
def search_entries (map : MemoryMap) :
    Except PanicKind (MemoryMapEntry × MemoryMap) :=
  match search_loop map.addr map.entries 0 0 with
  | Sum.inl entry => Except.ok (entry, map)
  | Sum.inr entry_count =>
      let entries1 := map.entries ++ [MemoryMapEntry.new]
      match entries1[entry_count + 1]? with
      | some entry => Except.ok (entry, { map with entries := entries1 })
      | none => Except.error PanicKind.indexOutOfBounds

/-- Rust MemoryMap::new(): one default entry, current_addr 0, mask all-ones. -/
def MemoryMap.new : MemoryMap where
  entries := [MemoryMapEntry.new]
  current_addr := 0
  global_addr_mask := 2 ^ 128 - 1

/-- Rust Bus::select_address for MemoryMap:
self.current_addr = addr & self.global_addr_mask. -/
def select_address (self : MemoryMap) (addr : Address) : MemoryMap :=
  { self with current_addr := addr &&& self.global_addr_mask }

/-- Rust Bus::read_u8 for MemoryMap.  A registered handler is called with
self.current_addr; with no handler the entry type decides: UnmappedLow 0,
UnmappedHigh 0xff, anything else panics. -/
def read_u8 (self : MemoryMap) : Except PanicKind (Nat × MemoryMap) :=
  match search_entries self with
  | Except.error p => Except.error p
  | Except.ok (entry, self1) =>
      match entry.func_read_u8 with
      | some func => Except.ok (func self1.current_addr % 2 ^ 8, self1)
      | none =>
          match entry.entry_type with
          | MemoryMapEntryType.UnmappedLow => Except.ok (0, self1)
          | MemoryMapEntryType.UnmappedHigh => Except.ok (0xff, self1)
          | _ => Except.error PanicKind.memoryMapBroken

/-- Rust Bus::read_u16 for MemoryMap.  The fallback self.read_u8() as u16
zero-extends a u8 value, which is the identity on its Nat embedding, and
runs on the state left by this call's search_entries. -/
def read_u16 (self : MemoryMap) : Except PanicKind (Nat × MemoryMap) :=
  match search_entries self with
  | Except.error p => Except.error p
  | Except.ok (entry, self1) =>
      match entry.func_read_u16 with
      | some func => Except.ok (func self1.current_addr % 2 ^ 16, self1)
      | none => read_u8 self1

/-- Rust Bus::read_u32 for MemoryMap (fallback: self.read_u16() as u32). -/
def read_u32 (self : MemoryMap) : Except PanicKind (Nat × MemoryMap) :=
  match search_entries self with
  | Except.error p => Except.error p
  | Except.ok (entry, self1) =>
      match entry.func_read_u32 with
      | some func => Except.ok (func self1.current_addr % 2 ^ 32, self1)
      | none => read_u16 self1

/-- Rust Bus::read_u64 for MemoryMap (fallback: self.read_u32() as u64). -/
def read_u64 (self : MemoryMap) : Except PanicKind (Nat × MemoryMap) :=
  match search_entries self with
  | Except.error p => Except.error p
  | Except.ok (entry, self1) =>
      match entry.func_read_u64 with
      | some func => Except.ok (func self1.current_addr % 2 ^ 64, self1)
      | none => read_u32 self1

/-- Rust Bus::read_u128 for MemoryMap (fallback: self.read_u64() as u128). -/
def read_u128 (self : MemoryMap) : Except PanicKind (Nat × MemoryMap) :=
  match search_entries self with
  | Except.error p => Except.error p
  | Except.ok (entry, self1) =>
      match entry.func_read_u128 with
      | some func => Except.ok (func self1.current_addr % 2 ^ 128, self1)
      | none => read_u64 self1

/-- Observable outcome of a Rust write call: either the registered handler
was invoked with these arguments (Some(func) => func(self.current_addr,
data)), or the write fell through the None arm and was discarded. -/
inductive WriteOutcome where
  | invoked (addr : Address) (data : Nat)
  | discarded
deriving DecidableEq, Repr

/-- Rust Bus::write_u8 for MemoryMap. -/
def write_u8 (self : MemoryMap) (data : Nat) :
    Except PanicKind (WriteOutcome × MemoryMap) :=
  match search_entries self with
  | Except.error p => Except.error p
  | Except.ok (entry, self1) =>
      match entry.func_write_u8 with
      | some _func => Except.ok (WriteOutcome.invoked self1.current_addr data, self1)
      | none => Except.ok (WriteOutcome.discarded, self1)

/-- Rust Bus::write_u16 for MemoryMap. -/
def write_u16 (self : MemoryMap) (data : Nat) :
    Except PanicKind (WriteOutcome × MemoryMap) :=
  match search_entries self with
  | Except.error p => Except.error p
  | Except.ok (entry, self1) =>
      match entry.func_write_u16 with
      | some _func => Except.ok (WriteOutcome.invoked self1.current_addr data, self1)
      | none => Except.ok (WriteOutcome.discarded, self1)

/-- Rust Bus::write_u32 for MemoryMap. -/
def write_u32 (self : MemoryMap) (data : Nat) :
    Except PanicKind (WriteOutcome × MemoryMap) :=
  match search_entries self with
  | Except.error p => Except.error p
  | Except.ok (entry, self1) =>
      match entry.func_write_u32 with
      | some _func => Except.ok (WriteOutcome.invoked self1.current_addr data, self1)
      | none => Except.ok (WriteOutcome.discarded, self1)

/-- Rust Bus::write_u64 for MemoryMap. -/
def write_u64 (self : MemoryMap) (data : Nat) :
    Except PanicKind (WriteOutcome × MemoryMap) :=
  match search_entries self with
  | Except.error p => Except.error p
  | Except.ok (entry, self1) =>
      match entry.func_write_u64 with
      | some _func => Except.ok (WriteOutcome.invoked self1.current_addr data, self1)
      | none => Except.ok (WriteOutcome.discarded, self1)

/-- Rust Bus::write_u128 for MemoryMap. -/
def write_u128 (self : MemoryMap) (data : Nat) :
    Except PanicKind (WriteOutcome × MemoryMap) :=
  match search_entries self with
  | Except.error p => Except.error p
  | Except.ok (entry, self1) =>
      match entry.func_write_u128 with
      | some _func => Except.ok (WriteOutcome.invoked self1.current_addr data, self1)
      | none => Except.ok (WriteOutcome.discarded, self1)

/-- Boolean form of the range test of search_entries:
(entry.start <= addr) && (entry.end >= addr). -/
def contains_addr (addr : Address) (entry : MemoryMapEntry) : Bool :=
  decide (entry.start ≤ addr ∧ addr ≤ entry.«end»)

/-- Frame relation between a map and a successor state produced by one bus
operation: address and mask untouched, entry list only ever extended. -/
def frame_ok (m m1 : MemoryMap) : Prop :=
  m1.current_addr = m.current_addr ∧
  m1.global_addr_mask = m.global_addr_mask ∧
  ∃ t, m1.entries = m.entries ++ t

/-- A mapped-looking entry covering only address 0, with no handlers:
start 0, end 0, type Read. -/
def narrow_read_entry : MemoryMapEntry :=
  { MemoryMapEntry.new with «end» := 0, entry_type := MemoryMapEntryType.Read }

/-- A map with two entries, neither containing the selected address 5. -/
def two_entry_map : MemoryMap where
  entries := [narrow_read_entry, narrow_read_entry]
  current_addr := 5
  global_addr_mask := 2 ^ 128 - 1

/-- A map whose entry list is empty (reachable only by direct field access,
as the Rust unit tests do). -/
def empty_map : MemoryMap where
  entries := []
  current_addr := 5
  global_addr_mask := 2 ^ 128 - 1

/-- A full-range entry declared Read but with no handler registered: the
misconfiguration that makes read_u8 panic. -/
def broken_entry : MemoryMapEntry :=
  { MemoryMapEntry.new with entry_type := MemoryMapEntryType.Read }

/-- A map whose single full-range entry is broken_entry. -/
def broken_map : MemoryMap where
  entries := [broken_entry]
  current_addr := 0
  global_addr_mask := 2 ^ 128 - 1

/-- A full-range entry with only an 8-bit read handler (constant 42). -/
def handler_entry : MemoryMapEntry :=
  { MemoryMapEntry.new with func_read_u8 := some fun _ => 42 }

/-- A map whose single full-range entry is handler_entry. -/
def handler_map : MemoryMap where
  entries := [handler_entry]
  current_addr := 3
  global_addr_mask := 2 ^ 128 - 1

/-- A full-range entry with only an 8-bit write handler. -/
def write_handler_entry : MemoryMapEntry :=
  { MemoryMapEntry.new with func_write_u8 := some fun _ _ => () }

/-- A map whose single full-range entry is write_handler_entry. -/
def write_handler_map : MemoryMap where
  entries := [write_handler_entry]
  current_addr := 9
  global_addr_mask := 2 ^ 128 - 1

/-- MemoryMap.new with global_addr_mask forced to 1, as in the Rust test
test_global_address_mask. -/
def mask1_map : MemoryMap :=
  { MemoryMap.new with global_addr_mask := 1 }

/-- MemoryMap.new with global_addr_mask forced to 7. -/
def mask7_map : MemoryMap :=
  { MemoryMap.new with global_addr_mask := 7 }

lemma frame_ok_refl (m : MemoryMap) : frame_ok m m :=
  ⟨rfl, rfl, [], by simp⟩

lemma frame_ok_trans {m m1 m2 : MemoryMap}
    (h1 : frame_ok m m1) (h2 : frame_ok m1 m2) : frame_ok m m2 := by
  obtain ⟨ha1, hb1, t1, hc1⟩ := h1
  obtain ⟨ha2, hb2, t2, hc2⟩ := h2
  exact ⟨ha2.trans ha1, hb2.trans hb1, t1 ++ t2, by rw [hc2, hc1, List.append_assoc]⟩

lemma land_mask_idem (a m : Nat) : (a &&& m) &&& m = a &&& m := by
  rw [Nat.land_assoc, Nat.and_self]

lemma search_loop_hit (addr : Address) :
    ∀ (es : List MemoryMapEntry) (e : MemoryMapEntry) (i c : Nat),
      es.find? (contains_addr addr) = some e →
      search_loop addr es i c = Sum.inl e := by
  intro es
  induction es with
  | nil => intro e i c h; simp at h
  | cons x rest ih =>
      intro e i c h
      by_cases hp : x.start ≤ addr ∧ addr ≤ x.«end»
      · have hc : contains_addr addr x = true := decide_eq_true hp
        rw [List.find?_cons_of_pos _ hc] at h
        cases h
        simp only [search_loop]
        rw [if_pos hp]
      · have hc : ¬ contains_addr addr x = true := by
          simp only [contains_addr, decide_eq_true_eq]
          exact hp
        rw [List.find?_cons_of_neg _ hc] at h
        simp only [search_loop]
        rw [if_neg hp]
        exact ih e (i + 1) i h

lemma search_loop_miss (addr : Address) :
    ∀ (es : List MemoryMapEntry) (i c : Nat),
      es ≠ [] →
      (∀ e ∈ es, ¬ (e.start ≤ addr ∧ addr ≤ e.«end»)) →
      search_loop addr es i c = Sum.inr (i + es.length - 1) := by
  intro es
  induction es with
  | nil => intro i c h _; exact absurd rfl h
  | cons x rest ih =>
      intro i c _ hall
      have hx := hall x (List.mem_cons_self x rest)
      simp only [search_loop]
      rw [if_neg hx]
      cases rest with
      | nil => simp [search_loop]
      | cons y rest2 =>
          rw [ih (i + 1) i (by simp) (fun e he => hall e (List.mem_cons_of_mem _ he))]
          congr 1
          simp only [List.length_cons]
          omega

lemma search_entries_hit (map : MemoryMap) (e : MemoryMapEntry)
    (h : map.entries.find? (contains_addr map.addr) = some e) :
    search_entries map = Except.ok (e, map) := by
  unfold search_entries
  rw [search_loop_hit map.addr map.entries e 0 0 h]

lemma search_entries_miss (map : MemoryMap)
    (h0 : map.entries ≠ [])
    (hall : ∀ e ∈ map.entries, ¬ (e.start ≤ map.addr ∧ map.addr ≤ e.«end»)) :
    search_entries map =
      Except.ok (MemoryMapEntry.new,
        { map with entries := map.entries ++ [MemoryMapEntry.new] }) := by
  have hlen : 0 < map.entries.length := List.length_pos.mpr h0
  unfold search_entries
  rw [search_loop_miss map.addr map.entries 0 0 h0 hall]
  have hidx : 0 + map.entries.length - 1 + 1 = map.entries.length := by omega
  simp only [hidx]
  rw [List.getElem?_concat_length]

lemma search_entries_frame (map m1 : MemoryMap) (e : MemoryMapEntry)
    (h : search_entries map = Except.ok (e, m1)) : frame_ok map m1 := by
  unfold search_entries at h
  cases hsl : search_loop map.addr map.entries 0 0 with
  | inl a =>
      rw [hsl] at h
      simp only [Except.ok.injEq, Prod.mk.injEq] at h
      rw [← h.2]
      exact frame_ok_refl map
  | inr c =>
      rw [hsl] at h
      simp only at h
      cases hg : (map.entries ++ [MemoryMapEntry.new])[c + 1]? with
      | none => rw [hg] at h; cases h
      | some a =>
          rw [hg] at h
          simp only [Except.ok.injEq, Prod.mk.injEq] at h
          rw [← h.2]
          exact ⟨rfl, rfl, [MemoryMapEntry.new], rfl⟩

lemma search_entries_total (m : MemoryMap) (h0 : m.entries ≠ []) :
    ∃ e m1, search_entries m = Except.ok (e, m1) := by
  cases hf : m.entries.find? (contains_addr m.addr) with
  | some e => exact ⟨e, m, search_entries_hit m e hf⟩
  | none =>
      refine ⟨_, _, search_entries_miss m h0 ?_⟩
      intro e he
      have := List.find?_eq_none.mp hf e he
      simpa [contains_addr] using this

lemma read_u8_frame (m : MemoryMap) (v : Nat) (m1 : MemoryMap)
    (h : read_u8 m = Except.ok (v, m1)) : frame_ok m m1 := by
  unfold read_u8 at h
  split at h
  · cases h
  next e m' hs =>
    have hf := search_entries_frame m m' e hs
    split at h
    · simp only [Except.ok.injEq, Prod.mk.injEq] at h
      rw [← h.2]; exact hf
    · split at h
      · simp only [Except.ok.injEq, Prod.mk.injEq] at h
        rw [← h.2]; exact hf
      · simp only [Except.ok.injEq, Prod.mk.injEq] at h
        rw [← h.2]; exact hf
      · cases h

lemma read_u16_frame (m : MemoryMap) (v : Nat) (m1 : MemoryMap)
    (h : read_u16 m = Except.ok (v, m1)) : frame_ok m m1 := by
  unfold read_u16 at h
  split at h
  · cases h
  next e m' hs =>
    have hf := search_entries_frame m m' e hs
    split at h
    · simp only [Except.ok.injEq, Prod.mk.injEq] at h
      rw [← h.2]; exact hf
    · exact frame_ok_trans hf (read_u8_frame m' v m1 h)

lemma read_u32_frame (m : MemoryMap) (v : Nat) (m1 : MemoryMap)
    (h : read_u32 m = Except.ok (v, m1)) : frame_ok m m1 := by
  unfold read_u32 at h
  split at h
  · cases h
  next e m' hs =>
    have hf := search_entries_frame m m' e hs
    split at h
    · simp only [Except.ok.injEq, Prod.mk.injEq] at h
      rw [← h.2]; exact hf
    · exact frame_ok_trans hf (read_u16_frame m' v m1 h)

lemma read_u64_frame (m : MemoryMap) (v : Nat) (m1 : MemoryMap)
    (h : read_u64 m = Except.ok (v, m1)) : frame_ok m m1 := by
  unfold read_u64 at h
  split at h
  · cases h
  next e m' hs =>
    have hf := search_entries_frame m m' e hs
    split at h
    · simp only [Except.ok.injEq, Prod.mk.injEq] at h
      rw [← h.2]; exact hf
    · exact frame_ok_trans hf (read_u32_frame m' v m1 h)

lemma read_u128_frame (m : MemoryMap) (v : Nat) (m1 : MemoryMap)
    (h : read_u128 m = Except.ok (v, m1)) : frame_ok m m1 := by
  unfold read_u128 at h
  split at h
  · cases h
  next e m' hs =>
    have hf := search_entries_frame m m' e hs
    split at h
    · simp only [Except.ok.injEq, Prod.mk.injEq] at h
      rw [← h.2]; exact hf
    · exact frame_ok_trans hf (read_u64_frame m' v m1 h)

lemma write_u8_frame (m : MemoryMap) (d : Nat) (w : WriteOutcome) (m1 : MemoryMap)
    (h : write_u8 m d = Except.ok (w, m1)) : frame_ok m m1 := by
  unfold write_u8 at h
  split at h
  · cases h
  next e m' hs =>
    have hf := search_entries_frame m m' e hs
    split at h <;>
      (simp only [Except.ok.injEq, Prod.mk.injEq] at h; rw [← h.2]; exact hf)

lemma write_u16_frame (m : MemoryMap) (d : Nat) (w : WriteOutcome) (m1 : MemoryMap)
    (h : write_u16 m d = Except.ok (w, m1)) : frame_ok m m1 := by
  unfold write_u16 at h
  split at h
  · cases h
  next e m' hs =>
    have hf := search_entries_frame m m' e hs
    split at h <;>
      (simp only [Except.ok.injEq, Prod.mk.injEq] at h; rw [← h.2]; exact hf)

lemma write_u32_frame (m : MemoryMap) (d : Nat) (w : WriteOutcome) (m1 : MemoryMap)
    (h : write_u32 m d = Except.ok (w, m1)) : frame_ok m m1 := by
  unfold write_u32 at h
  split at h
  · cases h
  next e m' hs =>
    have hf := search_entries_frame m m' e hs
    split at h <;>
      (simp only [Except.ok.injEq, Prod.mk.injEq] at h; rw [← h.2]; exact hf)

lemma write_u64_frame (m : MemoryMap) (d : Nat) (w : WriteOutcome) (m1 : MemoryMap)
    (h : write_u64 m d = Except.ok (w, m1)) : frame_ok m m1 := by
  unfold write_u64 at h
  split at h
  · cases h
  next e m' hs =>
    have hf := search_entries_frame m m' e hs
    split at h <;>
      (simp only [Except.ok.injEq, Prod.mk.injEq] at h; rw [← h.2]; exact hf)

lemma write_u128_frame (m : MemoryMap) (d : Nat) (w : WriteOutcome) (m1 : MemoryMap)
    (h : write_u128 m d = Except.ok (w, m1)) : frame_ok m m1 := by
  unfold write_u128 at h
  split at h
  · cases h
  next e m' hs =>
    have hf := search_entries_frame m m' e hs
    split at h <;>
      (simp only [Except.ok.injEq, Prod.mk.injEq] at h; rw [← h.2]; exact hf)

lemma read_u8_val_lt (m : MemoryMap) (v : Nat) (m1 : MemoryMap)
    (h : read_u8 m = Except.ok (v, m1)) : v < 2 ^ 8 := by
  unfold read_u8 at h
  split at h
  · cases h
  next e m' hs =>
    split at h
    · simp only [Except.ok.injEq, Prod.mk.injEq] at h
      rw [← h.1]
      exact Nat.mod_lt _ (by norm_num)
    · split at h
      · simp only [Except.ok.injEq, Prod.mk.injEq] at h
        rw [← h.1]; norm_num
      · simp only [Except.ok.injEq, Prod.mk.injEq] at h
        rw [← h.1]; norm_num
      · cases h

/-- C1 (amended): on a memory map with more than one entry, none of whose
entries contains the masked address, search_entries appends a default entry
and returns the entry at index (last visited index + 1); since the scan
leaves entry_count at length - 1, that index is exactly the position of the
entry just appended, so the fresh default entry itself is returned, not a
stale one. -/
theorem C1_miss_returns_fresh_entry (map : MemoryMap)
    (hlen : 1 < map.entries.length)
    (hall : ∀ e ∈ map.entries, ¬ (e.start ≤ map.addr ∧ map.addr ≤ e.«end»)) :
    search_entries map =
      Except.ok (MemoryMapEntry.new,
        { map with entries := map.entries ++ [MemoryMapEntry.new] }) :=
  search_entries_miss map (List.length_pos.mp (by omega)) hall

/-- C1 witness: the amended statement applied to the concrete two-entry map
whose entries both cover only address 0 while address 5 is selected. -/
theorem C1_miss_returns_fresh_entry_witness :
    search_entries two_entry_map =
      Except.ok (MemoryMapEntry.new,
        { two_entry_map with
            entries := two_entry_map.entries ++ [MemoryMapEntry.new] }) :=
  C1_miss_returns_fresh_entry two_entry_map (by decide)
    (by decide)

/-- C1 counterexample: on the two-entry map with a failed scan, resolution
returns the fresh default entry (entry_type UnmappedLow), not one of the
previously-appended entries (both of entry_type Read), refuting the claim
that a stale, previously-appended entry is returned rather than the entry
just created. -/
theorem C1_stale_entry_refuted :
    1 < two_entry_map.entries.length ∧
    (two_entry_map.entries.all fun e => ! contains_addr two_entry_map.addr e) = true ∧
    search_entries two_entry_map =
      Except.ok (MemoryMapEntry.new,
        { two_entry_map with
            entries := two_entry_map.entries ++ [MemoryMapEntry.new] }) ∧
    two_entry_map.entries.map MemoryMapEntry.entry_type =
      [MemoryMapEntryType.Read, MemoryMapEntryType.Read] ∧
    MemoryMapEntry.new.entry_type ≠ MemoryMapEntryType.Read :=
  ⟨by decide, by decide, by rfl, by rfl, by decide⟩

/-- C2 (amended): on every memory map whose entry list is nonempty,
resolution always succeeds, either leaving the list unchanged (hit) or
appending one default full-range UnmappedLow entry (miss); no
address-not-mapped error exists.  (With an empty entry list the resolver
instead aborts on an out-of-bounds index.) -/
theorem C2_resolver_total_on_nonempty (map : MemoryMap)
    (h0 : map.entries ≠ []) :
    ∃ e m1, search_entries map = Except.ok (e, m1) ∧
      (m1.entries = map.entries ∨
       m1.entries = map.entries ++ [MemoryMapEntry.new]) := by
  cases hf : map.entries.find? (contains_addr map.addr) with
  | some e =>
      exact ⟨e, map, search_entries_hit map e hf, Or.inl rfl⟩
  | none =>
      refine ⟨MemoryMapEntry.new, _, search_entries_miss map h0 ?_, Or.inr rfl⟩
      intro e he
      have := List.find?_eq_none.mp hf e he
      simpa [contains_addr] using this

/-- C2 witness: the amended statement applied to the default map. -/
theorem C2_resolver_total_on_nonempty_witness :
    ∃ e m1, search_entries MemoryMap.new = Except.ok (e, m1) ∧
      (m1.entries = MemoryMap.new.entries ∨
       m1.entries = MemoryMap.new.entries ++ [MemoryMapEntry.new]) :=
  C2_resolver_total_on_nonempty MemoryMap.new (by simp [MemoryMap.new])

/-- C2 counterexample: on a map whose entry list is empty, resolution does
not succeed: it aborts with the out-of-bounds index panic, refuting the
claim that resolution succeeds on every map state including one with an
empty entry list. -/
theorem C2_empty_entries_panic :
    empty_map.entries = [] ∧
    search_entries empty_map = Except.error PanicKind.indexOutOfBounds ∧
    read_u8 empty_map = Except.error PanicKind.indexOutOfBounds :=
  ⟨rfl, by rfl, by rfl⟩

/-- C8: whenever the first entry (in insertion order) whose inclusive range
contains the masked address exists, search_entries returns exactly that
entry and leaves the map, in particular its entry list, unchanged. -/
theorem C8_first_match_no_mutation (map : MemoryMap) (e : MemoryMapEntry)
    (h : map.entries.find? (contains_addr map.addr) = some e) :
    search_entries map = Except.ok (e, map) ∧
    contains_addr map.addr e = true :=
  ⟨search_entries_hit map e h, List.find?_some h⟩

/-- C8 witness: on the default map the sole full-range entry is the first
match at address 0 and is returned with the map unchanged. -/
theorem C8_first_match_no_mutation_witness :
    search_entries MemoryMap.new = Except.ok (MemoryMapEntry.new, MemoryMap.new) ∧
    contains_addr MemoryMap.new.addr MemoryMapEntry.new = true :=
  C8_first_match_no_mutation MemoryMap.new MemoryMapEntry.new (by rfl)

/-- C9: with global_addr_mask 1, select_address 5 stores current address 1;
with global_addr_mask 7, select_address 5 stores 5 and select_address 8
stores 0. -/
theorem C9_mask_arithmetic (map : MemoryMap) :
    (map.global_addr_mask = 1 → (select_address map 5).current_addr = 1) ∧
    (map.global_addr_mask = 7 →
      (select_address map 5).current_addr = 5 ∧
      (select_address map 8).current_addr = 0) := by
  constructor
  · intro h
    simp [select_address, h]
  · intro h
    have h5 : (5 : Nat) &&& 7 = 5 := by decide
    have h8 : (8 : Nat) &&& 7 = 0 := by decide
    exact ⟨by simp [select_address, h, h5], by simp [select_address, h, h8]⟩

/-- C9 witness: the three mask computations at the concrete maps of the
Rust unit test test_global_address_mask. -/
theorem C9_mask_arithmetic_witness :
    (select_address mask1_map 5).current_addr = 1 ∧
    (select_address mask7_map 5).current_addr = 5 ∧
    (select_address mask7_map 8).current_addr = 0 :=
  ⟨(C9_mask_arithmetic mask1_map).1 rfl,
   ((C9_mask_arithmetic mask7_map).2 rfl).1,
   ((C9_mask_arithmetic mask7_map).2 rfl).2⟩

/-- C3: selecting address a leaves the map in exactly the same state as
selecting the pre-masked address a &&& global_addr_mask, so every
subsequent read or write of every width gives the same result and the same
state changes; moreover the address used for resolution is the masked
value. -/
theorem C3_select_address_mask_invariant (map : MemoryMap) (a data : Nat) :
    select_address map a = select_address map (a &&& map.global_addr_mask) ∧
    (select_address map a).addr = a &&& map.global_addr_mask ∧
    search_entries (select_address map a) =
      search_entries (select_address map (a &&& map.global_addr_mask)) ∧
    read_u8 (select_address map a) =
      read_u8 (select_address map (a &&& map.global_addr_mask)) ∧
    read_u16 (select_address map a) =
      read_u16 (select_address map (a &&& map.global_addr_mask)) ∧
    read_u32 (select_address map a) =
      read_u32 (select_address map (a &&& map.global_addr_mask)) ∧
    read_u64 (select_address map a) =
      read_u64 (select_address map (a &&& map.global_addr_mask)) ∧
    read_u128 (select_address map a) =
      read_u128 (select_address map (a &&& map.global_addr_mask)) ∧
    write_u8 (select_address map a) data =
      write_u8 (select_address map (a &&& map.global_addr_mask)) data ∧
    write_u16 (select_address map a) data =
      write_u16 (select_address map (a &&& map.global_addr_mask)) data ∧
    write_u32 (select_address map a) data =
      write_u32 (select_address map (a &&& map.global_addr_mask)) data ∧
    write_u64 (select_address map a) data =
      write_u64 (select_address map (a &&& map.global_addr_mask)) data ∧
    write_u128 (select_address map a) data =
      write_u128 (select_address map (a &&& map.global_addr_mask)) data := by
  have h : select_address map a = select_address map (a &&& map.global_addr_mask) := by
    unfold select_address
    rw [land_mask_idem]
  have haddr : (select_address map a).addr = a &&& map.global_addr_mask := by
    simp only [select_address, MemoryMap.addr]
    exact land_mask_idem a map.global_addr_mask
  exact ⟨h, haddr, by rw [h], by rw [h], by rw [h], by rw [h], by rw [h],
    by rw [h], by rw [h], by rw [h], by rw [h], by rw [h], by rw [h]⟩

/-- C4: an 8-bit read whose resolved entry has no 8-bit read handler falls
back on the entry type: UnmappedLow reads 0, UnmappedHigh reads 0xff, and
each of Read, Write, ReadWrite aborts with the distinguished
memory-map-broken panic. -/
theorem C4_read_u8_fallback (map : MemoryMap) (e : MemoryMapEntry)
    (m1 : MemoryMap)
    (hs : search_entries map = Except.ok (e, m1))
    (h8 : e.func_read_u8 = none) :
    (e.entry_type = MemoryMapEntryType.UnmappedLow →
      read_u8 map = Except.ok (0, m1)) ∧
    (e.entry_type = MemoryMapEntryType.UnmappedHigh →
      read_u8 map = Except.ok (0xff, m1)) ∧
    (e.entry_type = MemoryMapEntryType.Read ∨
     e.entry_type = MemoryMapEntryType.Write ∨
     e.entry_type = MemoryMapEntryType.ReadWrite →
      read_u8 map = Except.error PanicKind.memoryMapBroken) := by
  refine ⟨fun ht => ?_, fun ht => ?_, fun ht => ?_⟩
  · unfold read_u8
    rw [hs]
    simp only
    rw [h8, ht]
  · unfold read_u8
    rw [hs]
    simp only
    rw [h8, ht]
  · unfold read_u8
    rw [hs]
    simp only
    rw [h8]
    rcases ht with h | h | h <;> rw [h]

/-- C4 witness: on the map whose sole full-range entry is typed Read with
no handler, an 8-bit read aborts with the memory-map-broken panic. -/
theorem C4_read_u8_fallback_witness :
    read_u8 broken_map = Except.error PanicKind.memoryMapBroken :=
  (C4_read_u8_fallback broken_map broken_entry broken_map (by rfl) rfl).2.2
    (Or.inl rfl)

/-- C5: a W-bit read (W in 16, 32, 64, 128) whose resolved entry has no
W-bit handler returns exactly the next-narrower read, run on the state the
W-bit resolution left behind; the 8-bit result is below 2 ^ 8, so each
widening step is zero-extension (the identity on the Nat embedding); in
particular with only an 8-bit handler registered on a stable resolved
entry, a 32-bit read returns that handler's u8 value, not a composition of
several byte reads. -/
theorem C5_wide_read_fallback (map : MemoryMap) (e : MemoryMapEntry)
    (m1 : MemoryMap)
    (hs : search_entries map = Except.ok (e, m1)) :
    ((e.func_read_u16 = none → read_u16 map = read_u8 m1) ∧
     (e.func_read_u32 = none → read_u32 map = read_u16 m1) ∧
     (e.func_read_u64 = none → read_u64 map = read_u32 m1) ∧
     (e.func_read_u128 = none → read_u128 map = read_u64 m1)) ∧
    (∀ v m2, read_u8 m1 = Except.ok (v, m2) → v < 2 ^ 8) ∧
    (∀ h : Address → Nat, m1 = map →
      e.func_read_u8 = some h →
      e.func_read_u16 = none →
      e.func_read_u32 = none →
      read_u32 map = Except.ok (h map.current_addr % 2 ^ 8, map)) := by
  refine ⟨⟨fun hn => ?_, fun hn => ?_, fun hn => ?_, fun hn => ?_⟩,
    fun v m2 hv => read_u8_val_lt m1 v m2 hv,
    fun h hm h8 h16 h32 => ?_⟩
  · unfold read_u16
    rw [hs]
    simp only
    rw [hn]
  · unfold read_u32
    rw [hs]
    simp only
    rw [hn]
  · unfold read_u64
    rw [hs]
    simp only
    rw [hn]
  · unfold read_u128
    rw [hs]
    simp only
    rw [hn]
  · subst hm
    unfold read_u32
    rw [hs]
    simp only
    rw [h32]
    unfold read_u16
    rw [hs]
    simp only
    rw [h16]
    unfold read_u8
    rw [hs]
    simp only
    rw [h8]

/-- C5 witness: on the map whose sole full-range entry carries only the
constant-42 8-bit read handler, the 32-bit read returns 42. -/
theorem C5_wide_read_fallback_witness :
    read_u32 handler_map = Except.ok (42 % 2 ^ 8, handler_map) :=
  (C5_wide_read_fallback handler_map handler_entry handler_map
      (by rfl)).2.2 (fun _ => 42) rfl rfl rfl rfl

/-- C6: for each width, a write whose resolved entry carries a write
handler of that width produces exactly one handler invocation with the
current address and the value, and otherwise is silently discarded; in
both cases the map state after the write is the state resolution left, and
no hypothesis on the entry's declared type is needed. -/
theorem C6_write_dispatch (map : MemoryMap) (e : MemoryMapEntry)
    (m1 : MemoryMap) (data : Nat)
    (hs : search_entries map = Except.ok (e, m1)) :
    (e.func_write_u8.isSome = true →
      write_u8 map data =
        Except.ok (WriteOutcome.invoked m1.current_addr data, m1)) ∧
    (e.func_write_u8 = none →
      write_u8 map data = Except.ok (WriteOutcome.discarded, m1)) ∧
    (e.func_write_u16.isSome = true →
      write_u16 map data =
        Except.ok (WriteOutcome.invoked m1.current_addr data, m1)) ∧
    (e.func_write_u16 = none →
      write_u16 map data = Except.ok (WriteOutcome.discarded, m1)) ∧
    (e.func_write_u32.isSome = true →
      write_u32 map data =
        Except.ok (WriteOutcome.invoked m1.current_addr data, m1)) ∧
    (e.func_write_u32 = none →
      write_u32 map data = Except.ok (WriteOutcome.discarded, m1)) ∧
    (e.func_write_u64.isSome = true →
      write_u64 map data =
        Except.ok (WriteOutcome.invoked m1.current_addr data, m1)) ∧
    (e.func_write_u64 = none →
      write_u64 map data = Except.ok (WriteOutcome.discarded, m1)) ∧
    (e.func_write_u128.isSome = true →
      write_u128 map data =
        Except.ok (WriteOutcome.invoked m1.current_addr data, m1)) ∧
    (e.func_write_u128 = none →
      write_u128 map data = Except.ok (WriteOutcome.discarded, m1)) := by
  refine ⟨fun h => ?_, fun h => ?_, fun h => ?_, fun h => ?_, fun h => ?_,
    fun h => ?_, fun h => ?_, fun h => ?_, fun h => ?_, fun h => ?_⟩
  · obtain ⟨f, hf⟩ := Option.isSome_iff_exists.mp h
    unfold write_u8
    rw [hs]
    simp only
    rw [hf]
  · unfold write_u8
    rw [hs]
    simp only
    rw [h]
  · obtain ⟨f, hf⟩ := Option.isSome_iff_exists.mp h
    unfold write_u16
    rw [hs]
    simp only
    rw [hf]
  · unfold write_u16
    rw [hs]
    simp only
    rw [h]
  · obtain ⟨f, hf⟩ := Option.isSome_iff_exists.mp h
    unfold write_u32
    rw [hs]
    simp only
    rw [hf]
  · unfold write_u32
    rw [hs]
    simp only
    rw [h]
  · obtain ⟨f, hf⟩ := Option.isSome_iff_exists.mp h
    unfold write_u64
    rw [hs]
    simp only
    rw [hf]
  · unfold write_u64
    rw [hs]
    simp only
    rw [h]
  · obtain ⟨f, hf⟩ := Option.isSome_iff_exists.mp h
    unfold write_u128
    rw [hs]
    simp only
    rw [hf]
  · unfold write_u128
    rw [hs]
    simp only
    rw [h]

/-- C6 witness: on the map whose sole entry has only an 8-bit write
handler, an 8-bit write at current address 9 records exactly one handler
invocation with (9, 5), while a 16-bit write is discarded. -/
theorem C6_write_dispatch_witness :
    write_u8 write_handler_map 5 =
      Except.ok (WriteOutcome.invoked write_handler_map.current_addr 5,
        write_handler_map) ∧
    write_u16 write_handler_map 5 =
      Except.ok (WriteOutcome.discarded, write_handler_map) :=
  ⟨(C6_write_dispatch write_handler_map write_handler_entry
      write_handler_map 5 (by rfl)).1 rfl,
   (C6_write_dispatch write_handler_map write_handler_entry
      write_handler_map 5 (by rfl)).2.2.2.1 rfl⟩

/-- C7: the default-constructed map has exactly one entry, covering
[0, 2 ^ 128 - 1], typed UnmappedLow, with no handlers of any width, and an
all-ones global address mask; consequently, after selecting any address, an
8-bit read returns 0 and an 8-bit write is discarded, each leaving the map
unchanged. -/
theorem C7_default_construction (a data : Nat) :
    MemoryMap.new.entries = [MemoryMapEntry.new] ∧
    MemoryMap.new.current_addr = 0 ∧
    MemoryMap.new.global_addr_mask = 2 ^ 128 - 1 ∧
    MemoryMapEntry.new.start = 0 ∧
    MemoryMapEntry.new.«end» = 2 ^ 128 - 1 ∧
    MemoryMapEntry.new.entry_type = MemoryMapEntryType.UnmappedLow ∧
    MemoryMapEntry.new.func_read_u8 = none ∧
    MemoryMapEntry.new.func_read_u16 = none ∧
    MemoryMapEntry.new.func_read_u32 = none ∧
    MemoryMapEntry.new.func_read_u64 = none ∧
    MemoryMapEntry.new.func_read_u128 = none ∧
    MemoryMapEntry.new.func_write_u8 = none ∧
    MemoryMapEntry.new.func_write_u16 = none ∧
    MemoryMapEntry.new.func_write_u32 = none ∧
    MemoryMapEntry.new.func_write_u64 = none ∧
    MemoryMapEntry.new.func_write_u128 = none ∧
    read_u8 (select_address MemoryMap.new a) =
      Except.ok (0, select_address MemoryMap.new a) ∧
    write_u8 (select_address MemoryMap.new a) data =
      Except.ok (WriteOutcome.discarded, select_address MemoryMap.new a) := by
  have hs : search_entries (select_address MemoryMap.new a) =
      Except.ok (MemoryMapEntry.new, select_address MemoryMap.new a) := by
    apply search_entries_hit
    show List.find? _ [MemoryMapEntry.new] = some MemoryMapEntry.new
    apply List.find?_cons_of_pos
    apply decide_eq_true
    refine ⟨Nat.zero_le _, ?_⟩
    show (a &&& (2 ^ 128 - 1)) &&& (2 ^ 128 - 1) ≤ 2 ^ 128 - 1
    exact Nat.and_le_right
  refine ⟨rfl, rfl, rfl, rfl, rfl, rfl, rfl, rfl, rfl, rfl, rfl, rfl, rfl,
    rfl, rfl, rfl, ?_, ?_⟩
  · unfold read_u8
    rw [hs]
    exact rfl
  · unfold write_u8
    rw [hs]
    exact rfl

/-- C10: select_address never changes the entry list or the mask, and no
read or write of any width changes the current address or the mask; the
only state change a read or write can make is extending the entry list (by
the appends a resolution miss performs). -/
theorem C10_frame_conditions (map : MemoryMap) (a data : Nat) :
    ((select_address map a).entries = map.entries ∧
     (select_address map a).global_addr_mask = map.global_addr_mask) ∧
    (∀ v m1, read_u8 map = Except.ok (v, m1) → frame_ok map m1) ∧
    (∀ v m1, read_u16 map = Except.ok (v, m1) → frame_ok map m1) ∧
    (∀ v m1, read_u32 map = Except.ok (v, m1) → frame_ok map m1) ∧
    (∀ v m1, read_u64 map = Except.ok (v, m1) → frame_ok map m1) ∧
    (∀ v m1, read_u128 map = Except.ok (v, m1) → frame_ok map m1) ∧
    (∀ w m1, write_u8 map data = Except.ok (w, m1) → frame_ok map m1) ∧
    (∀ w m1, write_u16 map data = Except.ok (w, m1) → frame_ok map m1) ∧
    (∀ w m1, write_u32 map data = Except.ok (w, m1) → frame_ok map m1) ∧
    (∀ w m1, write_u64 map data = Except.ok (w, m1) → frame_ok map m1) ∧
    (∀ w m1, write_u128 map data = Except.ok (w, m1) → frame_ok map m1) :=
  ⟨⟨rfl, rfl⟩,
   fun v m1 h => read_u8_frame map v m1 h,
   fun v m1 h => read_u16_frame map v m1 h,
   fun v m1 h => read_u32_frame map v m1 h,
   fun v m1 h => read_u64_frame map v m1 h,
   fun v m1 h => read_u128_frame map v m1 h,
   fun w m1 h => write_u8_frame map data w m1 h,
   fun w m1 h => write_u16_frame map data w m1 h,
   fun w m1 h => write_u32_frame map data w m1 h,
   fun w m1 h => write_u64_frame map data w m1 h,
   fun w m1 h => write_u128_frame map data w m1 h⟩

/-- C10 witness: the frame conditions applied to the default map with an
8-bit read, whose successor state is the default map itself. -/
theorem C10_frame_conditions_witness :
    (select_address MemoryMap.new 3).entries = MemoryMap.new.entries ∧
    frame_ok MemoryMap.new MemoryMap.new :=
  ⟨(C10_frame_conditions MemoryMap.new 3 0).1.1,
   (C10_frame_conditions MemoryMap.new 3 0).2.1 0 MemoryMap.new (by rfl)⟩
